import Mathlib

/-!
Verification of the Recall MCP HTTP server's session-management layer.

The embedding below translates the session router and session store of the
server source (the Express handlers for POST/GET/DELETE on the path /mcp,
the toolkit provisioning function, the transport onclose hook and the idle
sweep job) into pure Lean functions.  HTTP requests and responses become
records; the shared mutable map holding the live sessions becomes an
association list threaded through each handler; JavaScript truthiness of
the optional header strings and the substring test used for header
negotiation are modelled explicitly.
-/

namespace RecallMcp

/-- JavaScript truthiness of an optional string value: absent and the empty
string are falsy, every other string is truthy. -/
def jsTruthy : Option String → Bool
  | none => false
  | some s => if s = "" then false else true

/-- Whether the character list begins with the given pattern list; the
building block of the substring test. -/
def leadsWith : List Char → List Char → Bool
  | _, [] => true
  | [], _ :: _ => false
  | c :: cs, d :: ds => if c = d then leadsWith cs ds else false

/-- Whether the pattern occurs as a contiguous run inside the list. -/
def hasSubChars : List Char → List Char → Bool
  | [], sub => sub.isEmpty
  | c :: cs, sub => if leadsWith (c :: cs) sub then true else hasSubChars cs sub

/-- Model of the JavaScript `String.prototype.includes` substring test the
handlers apply to the Content-Type and Accept headers. -/
def jsIncludes (s sub : String) : Bool :=
  hasSubChars s.toList sub.toList

/-- One live session record as stored in the transports map: the transport
object and the toolkit object (each represented by an identity tag, since
both are opaque external collaborators) plus the activity timestamp in
milliseconds. -/
structure SessionData where
  transportId : Nat
  toolkitId : Nat
  lastActivity : Int
  deriving Repr, DecidableEq

/-- The session store: the JavaScript `transports` record, keyed by session
ID.  A JavaScript record has unique keys; the association list plays that
role, with `aset` mirroring property assignment and `aerase` mirroring
`delete`. -/
abbrev Store := List (String × SessionData)

/-- Association-list lookup, mirroring `transports[sessionId]`. -/
def alookup {β : Type} : List (String × β) → String → Option β
  | [], _ => none
  | (k, v) :: rest, key => if k = key then some v else alookup rest key

/-- Association-list assignment, mirroring `transports[sessionId] = data`:
replace in place when the key is present, append when it is new. -/
def aset {β : Type} : List (String × β) → String → β → List (String × β)
  | [], key, v => [(key, v)]
  | (k, w) :: rest, key, v =>
      if k = key then (key, v) :: rest else (k, w) :: aset rest key v

/-- Association-list removal, mirroring `delete transports[sessionId]`. -/
def aerase {β : Type} : List (String × β) → String → List (String × β)
  | [], _ => []
  | (k, w) :: rest, key =>
      if k = key then aerase rest key else (k, w) :: aerase rest key

/-- The keys of an association list, mirroring `Object.keys`. -/
def akeys {β : Type} (m : List (String × β)) : List String :=
  m.map Prod.fst

/-- The environment variables the server reads: the provisioning
credential and the optional network selector. -/
structure Env where
  recallPrivateKey : Option String
  recallNetwork : Option String
  deriving Repr, DecidableEq

/-- The toolkit factory `createToolkit`: it throws when the credential is
absent (JavaScript falsy), otherwise it constructs the dispatcher.  The
constructed toolkit object itself is opaque, so success carries no data;
the caller supplies the identity tag of the new object. -/
def createToolkit (env : Env) : Except String Unit :=
  if jsTruthy env.recallPrivateKey then Except.ok ()
  else Except.error "Missing RECALL_PRIVATE_KEY environment variable"

/-- The request headers the /mcp handlers consult. -/
structure Request where
  sessionIdHeader : Option String
  contentType : Option String
  accept : Option String
  deriving Repr, DecidableEq

/-- The response headers the handlers set explicitly. -/
structure ResponseHeaders where
  mcpSessionId : Option String
  contentType : Option String
  cacheControl : Option String
  connection : Option String
  deriving Repr, DecidableEq

/-- No header set yet. -/
def emptyHeaders : ResponseHeaders :=
  { mcpSessionId := none, contentType := none,
    cacheControl := none, connection := none }

/-- The headers announcing streaming mode: event-stream content type,
no caching, persistent connection. -/
def sseHeaders : ResponseHeaders :=
  { mcpSessionId := none, contentType := some "text/event-stream",
    cacheControl := some "no-cache", connection := some "keep-alive" }

/-- A JSON-RPC error envelope as the server emits it:
jsonrpc version string, error code, error message, and the id member,
which the server always sets to the JSON null (modelled as `none`). -/
structure RpcError where
  jsonrpc : String
  code : Int
  message : String
  id : Option String
  deriving Repr, DecidableEq

/-- The body of a response that the router sends itself (rather than
handing the connection to the transport). -/
inductive SentBody where
  | rpcErr (e : RpcError)
  | ack (status : String) (message : Option String)
  deriving Repr, DecidableEq

/-- The observable outcome of one handler run: either the router sent a
complete response itself, or it delegated the raw request to the session's
transport with the listed headers already set. -/
inductive HandlerOutcome where
  | sent (status : Nat) (hdrs : ResponseHeaders) (body : SentBody)
  | delegated (transportId : Nat) (hdrs : ResponseHeaders)
  deriving Repr, DecidableEq

/-- The response headers carried by an outcome. -/
def HandlerOutcome.hdrs : HandlerOutcome → ResponseHeaders
  | .sent _ h _ => h
  | .delegated _ h => h

/-- Session resolution shared by all three /mcp handlers: the JavaScript
condition `sessionId && transports[sessionId]` — a truthy session-ID
header naming a live session.  Returns the ID and its record on success. -/
def resolveSid (req : Request) (st : Store) : Option (String × SessionData) :=
  match req.sessionIdHeader with
  | none => none
  | some sid =>
      if sid = "" then none
      else
        match alookup st sid with
        | none => none
        | some sd => some (sid, sd)

/-- Accept negotiation of the POST handler: when the Accept header
contains the event-stream media type, switch the response to streaming
mode (event-stream content type, no-cache, keep-alive), otherwise
announce a plain JSON document. -/
def negotiate (accept : String) (hdrs : ResponseHeaders) : ResponseHeaders :=
  if jsIncludes accept "text/event-stream" then
    { hdrs with
      contentType := some "text/event-stream",
      cacheControl := some "no-cache",
      connection := some "keep-alive" }
  else
    { hdrs with contentType := some "application/json" }

/-- The tail of the POST handler after session resolution: the
content-type gate (415 when the declared media type does not include
application/json) followed by Accept negotiation and delegation to the
resolved session's transport. -/
def postValidate (req : Request) (st : Store) (sd : SessionData)
    (hdrs : ResponseHeaders) : HandlerOutcome × Store :=
  if jsIncludes (req.contentType.getD "") "application/json" then
    (HandlerOutcome.delegated sd.transportId (negotiate (req.accept.getD "") hdrs), st)
  else
    (HandlerOutcome.sent 415 hdrs
      (SentBody.rpcErr ⟨"2.0", -32000, "Content-Type must be application/json", none⟩), st)

/-- The POST /mcp handler.  `now` is the current clock reading,
`freshId` the UUID the generator would produce for a new session, and
`freshTr`/`freshTk` the identity tags of the transport and toolkit objects
a new session would construct.  Resolution first: a truthy header naming a
live session is reused (its lastActivity set to now); otherwise a new
session is provisioned — when toolkit construction throws, the catch block
answers 500 with the internal-error envelope and nothing is registered;
when it succeeds the session is registered and the fresh ID is set in the
Mcp-Session-Id response header.  Only then run the content-type gate and
Accept negotiation. -/
def handlePost (env : Env) (now : Int) (freshId : String) (freshTr freshTk : Nat)
    (req : Request) (st : Store) : HandlerOutcome × Store :=
  match resolveSid req st with
  | some (sid, sd) =>
      let sd2 := { sd with lastActivity := now }
      postValidate req (aset st sid sd2) sd2 emptyHeaders
  | none =>
      match createToolkit env with
      | Except.error _ =>
          (HandlerOutcome.sent 500 emptyHeaders
            (SentBody.rpcErr ⟨"2.0", -32603, "Internal server error", none⟩), st)
      | Except.ok _ =>
          let sd : SessionData :=
            { transportId := freshTr, toolkitId := freshTk, lastActivity := now }
          postValidate req (aset st freshId sd) sd
            { emptyHeaders with mcpSessionId := some freshId }

/-- The verb of a session-addressed request. -/
inductive Method where
  | GET
  | DELETE
  deriving Repr, DecidableEq

/-- The shared GET/DELETE handler `handleSessionRequest`: reject 400 when
the session-ID header is missing, empty or names no live session; then
update the session's lastActivity; DELETE closes the transport and removes
the session, answering a plain success acknowledgment; GET requires the
Accept header to include the event-stream media type (else 406),
sets the streaming headers and delegates to the transport. -/
def handleSessionRequest (method : Method) (now : Int) (req : Request)
    (st : Store) : HandlerOutcome × Store :=
  match resolveSid req st with
  | none =>
      (HandlerOutcome.sent 400 emptyHeaders
        (SentBody.rpcErr ⟨"2.0", -32000, "Invalid or missing session ID", none⟩), st)
  | some (sid, sd) =>
      let sd2 := { sd with lastActivity := now }
      let st2 := aset st sid sd2
      match method with
      | Method.DELETE =>
          (HandlerOutcome.sent 200 emptyHeaders
            (SentBody.ack "ok" (some "Session terminated")), aerase st2 sid)
      | Method.GET =>
          if jsIncludes (req.accept.getD "") "text/event-stream" then
            (HandlerOutcome.delegated sd2.transportId sseHeaders, st2)
          else
            (HandlerOutcome.sent 406 emptyHeaders
              (SentBody.rpcErr ⟨"2.0", -32000,
                "Accept header must include text/event-stream", none⟩), st2)

/-- The onclose hook installed on each new transport: it removes the
session from the store. -/
def transportOnClose (st : Store) (sid : String) : Store :=
  aerase st sid

/-- The idle timeout of the sweep job, in milliseconds: 30 minutes. -/
def sessionTimeout : Int := 30 * 60 * 1000

/-- The period of the sweep job timer, in milliseconds: 5 minutes. -/
def sweepInterval : Int := 5 * 60 * 1000

/-- One tick of the sweep job: every session whose elapsed time since its
last activity strictly exceeds the idle timeout is closed and removed;
every other session is kept untouched. -/
def sweepMap : Store → Int → Store
  | [], _ => []
  | (k, sd) :: rest, now =>
      if now - sd.lastActivity > sessionTimeout then sweepMap rest now
      else (k, sd) :: sweepMap rest now

/-! ### Association-list lemmas -/

theorem alookup_aset_self {β : Type} (m : List (String × β)) (k : String) (v : β) :
    alookup (aset m k v) k = some v := by
  induction m with
  | nil => simp [aset, alookup]
  | cons p rest ih =>
      obtain ⟨k1, w⟩ := p
      by_cases hk : k1 = k
      · subst hk; simp [aset, alookup]
      · simp [aset, alookup, hk, ih]

theorem alookup_aset_ne {β : Type} (m : List (String × β)) (k key : String) (v : β)
    (h : key ≠ k) : alookup (aset m k v) key = alookup m key := by
  induction m with
  | nil => simp [aset, alookup, Ne.symm h]
  | cons p rest ih =>
      obtain ⟨k1, w⟩ := p
      by_cases hk : k1 = k
      · subst hk; simp [aset, alookup, Ne.symm h]
      · by_cases hk2 : k1 = key
        · simp [aset, alookup, hk, hk2, h]
        · simp [aset, alookup, hk, hk2, ih]

theorem alookup_aerase_self {β : Type} (m : List (String × β)) (k : String) :
    alookup (aerase m k) k = none := by
  induction m with
  | nil => simp [aerase, alookup]
  | cons p rest ih =>
      obtain ⟨k1, w⟩ := p
      by_cases hk : k1 = k
      · simp [aerase, hk, ih]
      · simp [aerase, alookup, hk, ih]

theorem alookup_aerase_ne {β : Type} (m : List (String × β)) (k key : String)
    (h : key ≠ k) : alookup (aerase m k) key = alookup m key := by
  induction m with
  | nil => simp [aerase]
  | cons p rest ih =>
      obtain ⟨k1, w⟩ := p
      by_cases hk : k1 = k
      · subst hk; simp [aerase, alookup, Ne.symm h, ih]
      · by_cases hk2 : k1 = key
        · simp [aerase, alookup, hk, hk2, h]
        · simp [aerase, alookup, hk, hk2, ih]

theorem alookup_eq_none_iff {β : Type} (m : List (String × β)) (key : String) :
    alookup m key = none ↔ key ∉ akeys m := by
  induction m with
  | nil => simp [alookup, akeys]
  | cons p rest ih =>
      obtain ⟨k1, w⟩ := p
      by_cases hk : k1 = key
      · subst hk; simp [alookup, akeys]
      · simp [alookup, akeys, hk, Ne.symm hk, ih]

theorem mem_akeys_of_alookup {β : Type} (m : List (String × β)) (key : String)
    (v : β) (h : alookup m key = some v) : key ∈ akeys m := by
  by_contra hmem
  rw [← alookup_eq_none_iff] at hmem
  rw [h] at hmem
  exact Option.noConfusion hmem

theorem akeys_aset {β : Type} (m : List (String × β)) (k : String) (v : β) :
    akeys (aset m k v) = if k ∈ akeys m then akeys m else akeys m ++ [k] := by
  induction m with
  | nil => simp [aset, akeys]
  | cons p rest ih =>
      obtain ⟨k1, w⟩ := p
      by_cases hk : k1 = k
      · subst hk; simp [aset, akeys]
      · have h1 : aset ((k1, w) :: rest) k v = (k1, w) :: aset rest k v := by
          simp [aset, hk]
        rw [h1]
        have h2 : akeys ((k1, w) :: aset rest k v) = k1 :: akeys (aset rest k v) := rfl
        have h3 : akeys ((k1, w) :: rest) = k1 :: akeys rest := rfl
        rw [h2, h3, ih]
        by_cases hmem : k ∈ akeys rest
        · rw [if_pos hmem, if_pos (by simp [hmem] : k ∈ k1 :: akeys rest)]
        · rw [if_neg hmem,
            if_neg (by simp [hmem, Ne.symm hk] : ¬ k ∈ k1 :: akeys rest)]
          simp

theorem aerase_sublist {β : Type} (m : List (String × β)) (k : String) :
    List.Sublist (aerase m k) m := by
  induction m with
  | nil => simp [aerase]
  | cons p rest ih =>
      obtain ⟨k1, w⟩ := p
      by_cases hk : k1 = k
      · simp only [aerase, hk, if_pos rfl]
        exact ih.cons (k, w)
      · simp only [aerase, hk, if_neg hk]
        exact ih.cons₂ (k1, w)

theorem sweepMap_sublist (m : Store) (now : Int) :
    List.Sublist (sweepMap m now) m := by
  induction m with
  | nil => simp [sweepMap]
  | cons p rest ih =>
      obtain ⟨k1, w⟩ := p
      by_cases hexp : now - w.lastActivity > sessionTimeout
      · simp only [sweepMap, if_pos hexp]
        exact ih.cons (k1, w)
      · simp only [sweepMap, if_neg hexp]
        exact ih.cons₂ (k1, w)

theorem nodup_akeys_aset {β : Type} (m : List (String × β)) (k : String) (v : β)
    (h : (akeys m).Nodup) : (akeys (aset m k v)).Nodup := by
  rw [akeys_aset]
  by_cases hmem : k ∈ akeys m
  · simp [hmem, h]
  · simp [hmem, List.nodup_append, h]

theorem nodup_akeys_sublist {β : Type} (m1 m2 : List (String × β))
    (hsub : List.Sublist m1 m2) (h : (akeys m2).Nodup) : (akeys m1).Nodup :=
  List.Nodup.sublist (List.Sublist.map Prod.fst hsub) h

theorem alookup_sublist_none {β : Type} (m1 m2 : List (String × β)) (key : String)
    (hsub : List.Sublist m1 m2) (h : alookup m2 key = none) :
    alookup m1 key = none := by
  rw [alookup_eq_none_iff] at h ⊢
  intro hmem
  exact h (List.Sublist.subset (List.Sublist.map Prod.fst hsub) hmem)

theorem alookup_sweepMap (m : Store) (now : Int) (id : String) (sd : SessionData)
    (hnd : (akeys m).Nodup) (h : alookup m id = some sd) :
    alookup (sweepMap m now) id =
      if now - sd.lastActivity > sessionTimeout then none else some sd := by
  induction m with
  | nil => simp [alookup] at h
  | cons p rest ih =>
      obtain ⟨k, w⟩ := p
      have hnd1 : (k :: akeys rest).Nodup := hnd
      have hcons := List.nodup_cons.1 hnd1
      by_cases hk : k = id
      · subst hk
        have hw : w = sd := by simpa [alookup] using h
        subst hw
        have hnone : alookup rest k = none :=
          (alookup_eq_none_iff rest k).2 hcons.1
        by_cases hexp : now - w.lastActivity > sessionTimeout
        · rw [if_pos hexp]
          simp only [sweepMap, if_pos hexp]
          exact alookup_sublist_none _ _ _ (sweepMap_sublist rest now) hnone
        · rw [if_neg hexp]
          simp [sweepMap, hexp, alookup]
      · have hrest : alookup rest id = some sd := by
          simpa [alookup, hk] using h
        have hnd2 : (akeys rest).Nodup := hcons.2
        by_cases hexp : now - w.lastActivity > sessionTimeout
        · simp only [sweepMap, if_pos hexp]
          exact ih hnd2 hrest
        · simp only [sweepMap, if_neg hexp, alookup, hk, if_neg hk]
          exact ih hnd2 hrest

/-! ### Store-level event traces

Every mutation the server performs on the transports map is one of four
operations: registration of a freshly generated ID (POST creation branch),
an activity touch of a live ID (POST reuse branch, GET/DELETE after
validation), removal of an ID (DELETE branch and the transport onclose
hook) and a sweep tick.  A trace of these events models a lifetime of the
store across requests. -/

/-- One store mutation event. -/
inductive SEv where
  | create (id : String) (tr tk : Nat) (now : Int)
  | touch (id : String) (now : Int)
  | close (id : String)
  | sweepTick (now : Int)
  deriving Repr, DecidableEq

/-- The effect of one event on the store, each case written with the same
operation the corresponding handler code path performs. -/
def applyEv : SEv → Store → Store
  | SEv.create id tr tk now, st => aset st id ⟨tr, tk, now⟩
  | SEv.touch id now, st =>
      match alookup st id with
      | some sd => aset st id { sd with lastActivity := now }
      | none => st
  | SEv.close id, st => aerase st id
  | SEv.sweepTick now, st => sweepMap st now

/-- Run a trace of events from a given store. -/
def runFrom (st : Store) : List SEv → Store
  | [] => st
  | e :: rest => runFrom (applyEv e st) rest

/-- Run a trace of events from the initial empty store. -/
def runEvs (evs : List SEv) : Store :=
  runFrom [] evs

/-- The session IDs returned by the creation events of a trace, in order:
the IDs the UUID generator produced. -/
def createIds : List SEv → List String
  | [] => []
  | SEv.create id _ _ _ :: rest => id :: createIds rest
  | SEv.touch _ _ :: rest => createIds rest
  | SEv.close _ :: rest => createIds rest
  | SEv.sweepTick _ :: rest => createIds rest

theorem runFrom_append (st : Store) (a b : List SEv) :
    runFrom st (a ++ b) = runFrom (runFrom st a) b := by
  induction a generalizing st with
  | nil => simp [runFrom]
  | cons e rest ih => simp [runFrom, ih]

theorem createIds_append (a b : List SEv) :
    createIds (a ++ b) = createIds a ++ createIds b := by
  induction a with
  | nil => simp [createIds]
  | cons e rest ih => cases e <;> simp [createIds, ih]

theorem nodup_akeys_applyEv (e : SEv) (st : Store) (h : (akeys st).Nodup) :
    (akeys (applyEv e st)).Nodup := by
  cases e with
  | create id tr tk now => exact nodup_akeys_aset _ _ _ h
  | touch id now =>
      cases hl : alookup st id with
      | none => simpa [applyEv, hl] using h
      | some sd =>
          simp only [applyEv, hl]
          exact nodup_akeys_aset _ _ _ h
  | close id => exact nodup_akeys_sublist _ _ (aerase_sublist st id) h
  | sweepTick now => exact nodup_akeys_sublist _ _ (sweepMap_sublist st now) h

theorem nodup_akeys_runFrom (st : Store) (evs : List SEv)
    (h : (akeys st).Nodup) : (akeys (runFrom st evs)).Nodup := by
  induction evs generalizing st with
  | nil => simpa [runFrom] using h
  | cons e rest ih => exact ih _ (nodup_akeys_applyEv e st h)

theorem alookup_applyEv_none (e : SEv) (st : Store) (id : String)
    (hid : ∀ tr tk now, e ≠ SEv.create id tr tk now)
    (h : alookup st id = none) : alookup (applyEv e st) id = none := by
  cases e with
  | create id2 tr tk now =>
      have hne : id ≠ id2 := by
        intro hh
        exact hid tr tk now (by rw [hh])
      simpa [applyEv, alookup_aset_ne _ _ _ _ hne] using h
  | touch id2 now =>
      cases hl : alookup st id2 with
      | none => simpa [applyEv, hl] using h
      | some sd =>
          have hne : id ≠ id2 := by
            intro hh
            rw [← hh, h] at hl
            exact Option.noConfusion hl
          simpa [applyEv, hl, alookup_aset_ne _ _ _ _ hne] using h
  | close id2 =>
      by_cases hne : id = id2
      · subst hne; simpa [applyEv] using alookup_aerase_self st id
      · simpa [applyEv, alookup_aerase_ne _ _ _ hne] using h
  | sweepTick now =>
      exact alookup_sublist_none _ _ _ (sweepMap_sublist st now) h

theorem alookup_runFrom_none (st : Store) (evs : List SEv) (id : String)
    (hid : id ∉ createIds evs) (h : alookup st id = none) :
    alookup (runFrom st evs) id = none := by
  induction evs generalizing st with
  | nil => simpa [runFrom] using h
  | cons e rest ih =>
      have hid2 : id ∉ createIds rest := by
        cases e <;> simp [createIds] at hid ⊢ <;> tauto
      have hne : ∀ tr tk now, e ≠ SEv.create id tr tk now := by
        intro tr tk now hh
        subst hh
        simp [createIds] at hid
      exact ih _ hid2 (alookup_applyEv_none e st id hne h)

/-! ### The compiled variant keeping three separate maps

The dist build of the server keeps three parallel records instead of one:
`sessions` (ID to transport), `toolkits` (ID to toolkit) and
`lastActivity` (ID to timestamp).  Its mutation paths are: registration of
all three at session creation; an activity touch guarded by the request
validation (`sessions[sessionId]` must be truthy); removal from all three
on DELETE and in the onclose hook; and a sweep tick iterating the keys of
`sessions` and deleting the expired IDs from all three. -/

/-- The three parallel maps of the dist variant of the server. -/
structure TriState where
  sessions : List (String × Nat)
  toolkits : List (String × Nat)
  lastActivity : List (String × Int)
  deriving Repr, DecidableEq

/-- One mutation step of the three maps, one constructor per code path. -/
inductive TriStep where
  | register (id : String) (tr tk : Nat) (now : Int)
  | touch (id : String) (now : Int)
  | removeAll (id : String)
  | sweepTick (now : Int)
  deriving Repr, DecidableEq

/-- The sweep's expiry test `now - lastActivity[id] > timeout`: when the
timestamp is absent the JavaScript comparison is against NaN and is
false. -/
def triExpired (now : Int) (la : List (String × Int)) (id : String) : Bool :=
  match alookup la id with
  | some t => decide (now - t > sessionTimeout)
  | none => false

/-- Deletion of one ID from all three maps, as the DELETE branch, the
onclose hook and the sweep body perform it. -/
def triRemove (s : TriState) (id : String) : TriState :=
  { sessions := aerase s.sessions id,
    toolkits := aerase s.toolkits id,
    lastActivity := aerase s.lastActivity id }

/-- The effect of one step on the three maps. -/
def triApply : TriStep → TriState → TriState
  | TriStep.register id tr tk now, s =>
      { sessions := aset s.sessions id tr,
        toolkits := aset s.toolkits id tk,
        lastActivity := aset s.lastActivity id now }
  | TriStep.touch id now, s =>
      match alookup s.sessions id with
      | some _ => { s with lastActivity := aset s.lastActivity id now }
      | none => s
  | TriStep.removeAll id, s => triRemove s id
  | TriStep.sweepTick now, s =>
      ((akeys s.sessions).filter
        (fun id => triExpired now s.lastActivity id)).foldl triRemove s

/-- Run a list of steps from a given state. -/
def triRunFrom (s : TriState) : List TriStep → TriState
  | [] => s
  | e :: rest => triRunFrom (triApply e s) rest

/-- Run a list of steps from the initial state of three empty maps. -/
def triRun (steps : List TriStep) : TriState :=
  triRunFrom ⟨[], [], []⟩ steps

/-- The consistency property of the three maps: all three hold exactly the
same keys, in the same order. -/
def TriConsistent (s : TriState) : Prop :=
  akeys s.sessions = akeys s.toolkits ∧ akeys s.sessions = akeys s.lastActivity

/-- The key list after an `aerase` depends only on the key list before. -/
def eraseKey : List String → String → List String
  | [], _ => []
  | x :: xs, k => if x = k then eraseKey xs k else x :: eraseKey xs k

theorem akeys_aerase {β : Type} (m : List (String × β)) (k : String) :
    akeys (aerase m k) = eraseKey (akeys m) k := by
  induction m with
  | nil => simp [aerase, akeys, eraseKey]
  | cons p rest ih =>
      obtain ⟨k1, w⟩ := p
      simp only [akeys] at ih
      by_cases hk : k1 = k
      · simp [aerase, akeys, eraseKey, hk, ih]
      · simp [aerase, akeys, eraseKey, hk, ih]

theorem triConsistent_triRemove (s : TriState) (id : String)
    (h : TriConsistent s) : TriConsistent (triRemove s id) := by
  obtain ⟨h1, h2⟩ := h
  constructor
  · simp [triRemove, akeys_aerase, h1]
  · simp [triRemove, akeys_aerase, h2]

theorem triConsistent_foldl_triRemove (ids : List String) (s : TriState)
    (h : TriConsistent s) : TriConsistent (ids.foldl triRemove s) := by
  induction ids generalizing s with
  | nil => simpa using h
  | cons id rest ih => exact ih _ (triConsistent_triRemove s id h)

theorem triConsistent_triApply (e : TriStep) (s : TriState)
    (h : TriConsistent s) : TriConsistent (triApply e s) := by
  obtain ⟨h1, h2⟩ := h
  cases e with
  | register id tr tk now =>
      constructor
      · simp [triApply, akeys_aset, h1]
      · simp [triApply, akeys_aset, h2]
  | touch id now =>
      cases hl : alookup s.sessions id with
      | none => simp only [triApply, hl]; exact ⟨h1, h2⟩
      | some tr =>
          have hmem : id ∈ akeys s.sessions := mem_akeys_of_alookup _ _ _ hl
          constructor
          · simp only [triApply, hl]; exact h1
          · simp only [triApply, hl]
            rw [akeys_aset, if_pos (h2 ▸ hmem)]
            exact h2
  | removeAll id => exact triConsistent_triRemove s id ⟨h1, h2⟩
  | sweepTick now => exact triConsistent_foldl_triRemove _ s ⟨h1, h2⟩

theorem triConsistent_triRunFrom (steps : List TriStep) (s : TriState)
    (h : TriConsistent s) : TriConsistent (triRunFrom s steps) := by
  induction steps generalizing s with
  | nil => simpa [triRunFrom] using h
  | cons e rest ih => exact ih _ (triConsistent_triApply e s h)

/-! ### Session-resolution lemmas -/

theorem resolveSid_some (req : Request) (st : Store) (sid : String)
    (sd : SessionData) (h : resolveSid req st = some (sid, sd)) :
    req.sessionIdHeader = some sid ∧ sid ≠ "" ∧ alookup st sid = some sd := by
  unfold resolveSid at h
  cases hh : req.sessionIdHeader with
  | none => rw [hh] at h; simp at h
  | some s =>
      rw [hh] at h
      by_cases hs : s = ""
      · simp [hs] at h
      · cases hl : alookup st s with
        | none => simp [hs, hl] at h
        | some sd2 =>
            simp [hs, hl] at h
            obtain ⟨h1, h2⟩ := h
            subst h1; subst h2
            exact ⟨rfl, hs, hl⟩

theorem resolveSid_eq_none (req : Request) (st : Store) (sid : String)
    (hh : req.sessionIdHeader = some sid) (hl : alookup st sid = none) :
    resolveSid req st = none := by
  unfold resolveSid
  rw [hh]
  by_cases hs : sid = ""
  · simp [hs]
  · simp [hs, hl]

theorem aset_of_not_mem {β : Type} (m : List (String × β)) (k : String) (v : β)
    (h : k ∉ akeys m) : aset m k v = m ++ [(k, v)] := by
  induction m with
  | nil => simp [aset]
  | cons p rest ih =>
      obtain ⟨k1, w⟩ := p
      have h2 : ¬ (k = k1 ∨ k ∈ akeys rest) := by simpa [akeys] using h
      push_neg at h2
      simp [aset, Ne.symm h2.1, ih h2.2]

theorem negotiate_mcpSessionId (accept : String) (hdrs : ResponseHeaders) :
    (negotiate accept hdrs).mcpSessionId = hdrs.mcpSessionId := by
  by_cases h : jsIncludes accept "text/event-stream" = true
  · simp [negotiate, h]
  · simp at h
    simp [negotiate, h]

/-! ### The claims -/

/-- Claim C1, as stated, is false on the code: session resolution runs
before the content-type gate, so a POST with a non-JSON content type and
no session header does create and register a new session before the 415
response is sent.  Concretely: an environment with the credential set, an
empty store, and a POST with Content-Type text/plain and no session
header yields the 415 response with code -32000 — but the store afterwards
holds the freshly registered session and the response carries its fresh ID
in the Mcp-Session-Id header. -/
theorem claim1_counterexample :
    handlePost { recallPrivateKey := some "0xkey", recallNetwork := none } 5
      "fresh" 7 8
      { sessionIdHeader := none, contentType := some "text/plain", accept := none }
      [] =
    (HandlerOutcome.sent 415 { emptyHeaders with mcpSessionId := some "fresh" }
      (SentBody.rpcErr ⟨"2.0", -32000, "Content-Type must be application/json", none⟩),
     [("fresh", { transportId := 7, toolkitId := 8, lastActivity := 5 })]) ∧
    ([] : Store) ≠
      [("fresh", { transportId := 7, toolkitId := 8, lastActivity := 5 })] := by
  constructor
  · decide
  · decide

/-- Claim C1 amended: every POST whose declared content type does not
include application/json and for which provisioning succeeds yields the
415 response with code -32000 — but the store is mutated first: a request reusing a
live session updates that session's lastActivity, and a request without a
currently-valid ID registers a brand-new session and sets its ID in the
Mcp-Session-Id response header before the 415 is sent. -/
theorem claim1_content_type_gate (env : Env) (now : Int) (freshId : String)
    (freshTr freshTk : Nat) (req : Request) (st : Store)
    (hct : jsIncludes (req.contentType.getD "") "application/json" = false)
    (hkey : jsTruthy env.recallPrivateKey = true) :
    (∀ sid sd, resolveSid req st = some (sid, sd) →
      handlePost env now freshId freshTr freshTk req st =
        (HandlerOutcome.sent 415 emptyHeaders
          (SentBody.rpcErr ⟨"2.0", -32000,
            "Content-Type must be application/json", none⟩),
         aset st sid { sd with lastActivity := now })) ∧
    (resolveSid req st = none →
      handlePost env now freshId freshTr freshTk req st =
        (HandlerOutcome.sent 415 { emptyHeaders with mcpSessionId := some freshId }
          (SentBody.rpcErr ⟨"2.0", -32000,
            "Content-Type must be application/json", none⟩),
         aset st freshId { transportId := freshTr, toolkitId := freshTk,
                           lastActivity := now })) := by
  constructor
  · intro sid sd hres
    simp [handlePost, hres, postValidate, hct]
  · intro hres
    simp [handlePost, hres, createToolkit, hkey, postValidate, hct]

/-- Witness for the amended claim C1 at a concrete input: credential set,
empty store, POST with Content-Type text/plain and no session header. -/
theorem claim1_witness :
    handlePost { recallPrivateKey := some "0xkey", recallNetwork := none } 5
      "fresh" 7 8
      { sessionIdHeader := none, contentType := some "text/plain", accept := none }
      [] =
    (HandlerOutcome.sent 415 { emptyHeaders with mcpSessionId := some "fresh" }
      (SentBody.rpcErr ⟨"2.0", -32000, "Content-Type must be application/json", none⟩),
     aset [] "fresh" { transportId := 7, toolkitId := 8, lastActivity := 5 }) :=
  (claim1_content_type_gate
    { recallPrivateKey := some "0xkey", recallNetwork := none } 5 "fresh" 7 8
    { sessionIdHeader := none, contentType := some "text/plain", accept := none }
    [] (by decide) (by decide)).2 (by decide)

/-- Claim C2, as stated, is false on the code: `handleSessionRequest`
updates the addressed session's lastActivity before the GET Accept gate
runs, so the 406 rejection does mutate the session.  Concretely: a GET
naming live session s with Accept application/json at time 999 yields the
406 response with code -32000, yet the stored lastActivity changed from
0 to 999. -/
theorem claim2_counterexample :
    handleSessionRequest Method.GET 999
      { sessionIdHeader := some "s", contentType := none,
        accept := some "application/json" }
      [("s", { transportId := 1, toolkitId := 2, lastActivity := 0 })] =
    (HandlerOutcome.sent 406 emptyHeaders
      (SentBody.rpcErr ⟨"2.0", -32000,
        "Accept header must include text/event-stream", none⟩),
     [("s", { transportId := 1, toolkitId := 2, lastActivity := 999 })]) ∧
    alookup [("s", { transportId := 1, toolkitId := 2, lastActivity := 0 })] "s" ≠
    alookup [("s", ({ transportId := 1, toolkitId := 2, lastActivity := 999 } :
      SessionData))] "s" := by
  constructor
  · decide
  · decide

/-- Claim C2 amended: every GET bearing a live session ID whose Accept
header does not include text/event-stream is rejected with 406 and
JSON-RPC code -32000 — but the addressed session's lastActivity is
updated to the request's clock reading before the rejection. -/
theorem claim2_streaming_gate (now : Int) (req : Request) (st : Store)
    (sid : String) (sd : SessionData)
    (hres : resolveSid req st = some (sid, sd))
    (hacc : jsIncludes (req.accept.getD "") "text/event-stream" = false) :
    handleSessionRequest Method.GET now req st =
      (HandlerOutcome.sent 406 emptyHeaders
        (SentBody.rpcErr ⟨"2.0", -32000,
          "Accept header must include text/event-stream", none⟩),
       aset st sid { sd with lastActivity := now }) := by
  simp [handleSessionRequest, hres, hacc]

/-- Witness for the amended claim C2 at a concrete input. -/
theorem claim2_witness :
    handleSessionRequest Method.GET 999
      { sessionIdHeader := some "s", contentType := none,
        accept := some "application/json" }
      [("s", { transportId := 1, toolkitId := 2, lastActivity := 0 })] =
    (HandlerOutcome.sent 406 emptyHeaders
      (SentBody.rpcErr ⟨"2.0", -32000,
        "Accept header must include text/event-stream", none⟩),
     aset [("s", { transportId := 1, toolkitId := 2, lastActivity := 0 })] "s"
       { transportId := 1, toolkitId := 2, lastActivity := 999 }) :=
  claim2_streaming_gate 999
    { sessionIdHeader := some "s", contentType := none,
      accept := some "application/json" }
    [("s", { transportId := 1, toolkitId := 2, lastActivity := 0 })]
    "s" { transportId := 1, toolkitId := 2, lastActivity := 0 }
    (by decide) (by decide)

/-- Claim C3, as stated, is false on the code: the second termination of
the same ID is not acknowledged as success — the GET/DELETE validation
rejects the now-absent ID with the 400 invalid-session response.
Concretely: two DELETEs for session s in sequence; the second yields 400
with code -32000, not a success acknowledgment. -/
theorem claim3_counterexample :
    (handleSessionRequest Method.DELETE 2
      { sessionIdHeader := some "s", contentType := none, accept := none }
      (handleSessionRequest Method.DELETE 1
        { sessionIdHeader := some "s", contentType := none, accept := none }
        [("s", { transportId := 1, toolkitId := 2, lastActivity := 0 })]).2).1 =
    HandlerOutcome.sent 400 emptyHeaders
      (SentBody.rpcErr ⟨"2.0", -32000, "Invalid or missing session ID", none⟩) ∧
    (handleSessionRequest Method.DELETE 2
      { sessionIdHeader := some "s", contentType := none, accept := none }
      (handleSessionRequest Method.DELETE 1
        { sessionIdHeader := some "s", contentType := none, accept := none }
        [("s", { transportId := 1, toolkitId := 2, lastActivity := 0 })]).2).1 ≠
    HandlerOutcome.sent 200 emptyHeaders
      (SentBody.ack "ok" (some "Session terminated")) := by
  constructor
  · decide
  · decide

/-- Claim C3 amended: terminating a live session succeeds with the 200
acknowledgment and afterwards the store has no entry for that ID; a second
termination of the same ID (equally, a termination after the transport
already self-closed and the onclose hook removed the session) raises no
exception and leaves the store unchanged — still without that ID — but it
is rejected with the 400 invalid-session response, not acknowledged as
success. -/
theorem claim3_termination (now now2 : Int) (req : Request) (st st2 : Store)
    (sid : String) (sd : SessionData)
    (hres : resolveSid req st = some (sid, sd))
    (habsent : alookup st2 sid = none) :
    (handleSessionRequest Method.DELETE now req st).1 =
      HandlerOutcome.sent 200 emptyHeaders
        (SentBody.ack "ok" (some "Session terminated")) ∧
    alookup (handleSessionRequest Method.DELETE now req st).2 sid = none ∧
    handleSessionRequest Method.DELETE now2 req st2 =
      (HandlerOutcome.sent 400 emptyHeaders
        (SentBody.rpcErr ⟨"2.0", -32000, "Invalid or missing session ID", none⟩),
       st2) := by
  obtain ⟨hhd, hne, hlk⟩ := resolveSid_some req st sid sd hres
  refine ⟨?_, ?_, ?_⟩
  · simp [handleSessionRequest, hres]
  · simp only [handleSessionRequest, hres]
    exact alookup_aerase_self _ _
  · simp [handleSessionRequest, resolveSid_eq_none req st2 sid hhd habsent]

/-- Witness for the amended claim C3 at a concrete input: the second
DELETE is chained on the store the first DELETE produced. -/
theorem claim3_witness :
    (handleSessionRequest Method.DELETE 1
      { sessionIdHeader := some "s", contentType := none, accept := none }
      [("s", { transportId := 1, toolkitId := 2, lastActivity := 0 })]).1 =
      HandlerOutcome.sent 200 emptyHeaders
        (SentBody.ack "ok" (some "Session terminated")) ∧
    alookup (handleSessionRequest Method.DELETE 1
      { sessionIdHeader := some "s", contentType := none, accept := none }
      [("s", { transportId := 1, toolkitId := 2, lastActivity := 0 })]).2 "s" = none ∧
    handleSessionRequest Method.DELETE 2
      { sessionIdHeader := some "s", contentType := none, accept := none }
      [] =
      (HandlerOutcome.sent 400 emptyHeaders
        (SentBody.rpcErr ⟨"2.0", -32000, "Invalid or missing session ID", none⟩),
       []) :=
  claim3_termination 1 2
    { sessionIdHeader := some "s", contentType := none, accept := none }
    [("s", { transportId := 1, toolkitId := 2, lastActivity := 0 })] []
    "s" { transportId := 1, toolkitId := 2, lastActivity := 0 }
    (by decide) (by decide)

/-- Claim C4: session creation is atomic with respect to provisioning
failure.  When the credential is absent (JavaScript falsy) and the request
carries no currently-valid session ID, `createToolkit` throws before any
registration, the POST handler's catch answers 500 with JSON-RPC code
-32603, and the store is returned exactly as it was. -/
theorem claim4_provisioning_atomic (env : Env) (now : Int) (freshId : String)
    (freshTr freshTk : Nat) (req : Request) (st : Store)
    (hkey : jsTruthy env.recallPrivateKey = false)
    (hres : resolveSid req st = none) :
    handlePost env now freshId freshTr freshTk req st =
      (HandlerOutcome.sent 500 emptyHeaders
        (SentBody.rpcErr ⟨"2.0", -32603, "Internal server error", none⟩), st) := by
  simp [handlePost, hres, createToolkit, hkey]

/-- Witness for claim C4 at a concrete input: no credential, one live
session in the store, a POST naming no session. -/
theorem claim4_witness :
    handlePost { recallPrivateKey := none, recallNetwork := none } 9
      "fresh" 7 8
      { sessionIdHeader := none, contentType := some "application/json",
        accept := none }
      [("old", { transportId := 1, toolkitId := 2, lastActivity := 0 })] =
    (HandlerOutcome.sent 500 emptyHeaders
      (SentBody.rpcErr ⟨"2.0", -32603, "Internal server error", none⟩),
     [("old", { transportId := 1, toolkitId := 2, lastActivity := 0 })]) :=
  claim4_provisioning_atomic
    { recallPrivateKey := none, recallNetwork := none } 9 "fresh" 7 8
    { sessionIdHeader := none, contentType := some "application/json",
      accept := none }
    [("old", { transportId := 1, toolkitId := 2, lastActivity := 0 })]
    (by decide) (by decide)

/-- Claim C5: session resolution on POST.  A POST carrying a session ID
present in the store reuses that session: its lastActivity is set to now,
the very record (same transport and toolkit) is delegated to once the
JSON content-type gate passes, the key set of the store is unchanged (no
second session is created) and no Mcp-Session-Id response header is set.
A POST without a currently-valid ID registers exactly one new session —
the store grows by exactly the fresh entry — and the fresh ID is returned
in the Mcp-Session-Id response header. -/
theorem claim5_session_resolution (env : Env) (now : Int) (freshId : String)
    (freshTr freshTk : Nat) (req : Request) (st : Store) :
    (∀ sid sd, resolveSid req st = some (sid, sd) →
      ((handlePost env now freshId freshTr freshTk req st).2 =
          aset st sid { sd with lastActivity := now } ∧
       akeys (aset st sid { sd with lastActivity := now }) = akeys st ∧
       alookup (aset st sid { sd with lastActivity := now }) sid =
         some { sd with lastActivity := now } ∧
       ((handlePost env now freshId freshTr freshTk req st).1).hdrs.mcpSessionId =
         none) ∧
      (jsIncludes (req.contentType.getD "") "application/json" = true →
        (handlePost env now freshId freshTr freshTk req st).1 =
          HandlerOutcome.delegated sd.transportId
            (negotiate (req.accept.getD "") emptyHeaders))) ∧
    (resolveSid req st = none →
      jsTruthy env.recallPrivateKey = true →
      freshId ∉ akeys st →
      (handlePost env now freshId freshTr freshTk req st).2 =
        st ++ [(freshId, { transportId := freshTr, toolkitId := freshTk,
                           lastActivity := now })] ∧
      ((handlePost env now freshId freshTr freshTk req st).1).hdrs.mcpSessionId =
        some freshId) := by
  constructor
  · intro sid sd hres
    obtain ⟨hhd, hne, hlk⟩ := resolveSid_some req st sid sd hres
    refine ⟨⟨?_, ?_, alookup_aset_self _ _ _, ?_⟩, ?_⟩
    · by_cases hct : jsIncludes (req.contentType.getD "") "application/json" = true
      · simp [handlePost, hres, postValidate, hct]
      · simp only [Bool.not_eq_true] at hct
        simp [handlePost, hres, postValidate, hct]
    · rw [akeys_aset, if_pos (mem_akeys_of_alookup st sid sd hlk)]
    · by_cases hct : jsIncludes (req.contentType.getD "") "application/json" = true
      · simp [handlePost, hres, postValidate, hct, HandlerOutcome.hdrs,
          negotiate_mcpSessionId, emptyHeaders]
      · simp only [Bool.not_eq_true] at hct
        simp [handlePost, hres, postValidate, hct, HandlerOutcome.hdrs,
          emptyHeaders]
    · intro hct
      simp [handlePost, hres, postValidate, hct]
  · intro hres hkey hfresh
    constructor
    · rw [← aset_of_not_mem st freshId _ hfresh]
      by_cases hct : jsIncludes (req.contentType.getD "") "application/json" = true
      · simp [handlePost, hres, createToolkit, hkey, postValidate, hct]
      · simp only [Bool.not_eq_true] at hct
        simp [handlePost, hres, createToolkit, hkey, postValidate, hct]
    · by_cases hct : jsIncludes (req.contentType.getD "") "application/json" = true
      · simp [handlePost, hres, createToolkit, hkey, postValidate, hct,
          HandlerOutcome.hdrs, negotiate_mcpSessionId]
      · simp only [Bool.not_eq_true] at hct
        simp [handlePost, hres, createToolkit, hkey, postValidate, hct,
          HandlerOutcome.hdrs]

/-- Witness for claim C5: the reuse part at a POST naming live session s,
and the creation part at a POST naming no session, both against the
one-session store. -/
theorem claim5_witness :
    ((handlePost { recallPrivateKey := some "0xkey", recallNetwork := none } 50
      "fresh" 7 8
      { sessionIdHeader := some "s", contentType := some "application/json",
        accept := none }
      [("s", { transportId := 1, toolkitId := 2, lastActivity := 0 })]).2 =
      aset ([("s", { transportId := 1, toolkitId := 2, lastActivity := 0 })] :
          Store) "s"
        { transportId := 1, toolkitId := 2, lastActivity := 50 } ∧
     akeys (aset ([("s", { transportId := 1, toolkitId := 2, lastActivity := 0 })] :
           Store)
       "s" { transportId := 1, toolkitId := 2, lastActivity := 50 }) =
       akeys ([("s", { transportId := 1, toolkitId := 2, lastActivity := 0 })] :
         Store) ∧
     alookup (aset ([("s", { transportId := 1, toolkitId := 2, lastActivity := 0 })] :
           Store)
       "s" { transportId := 1, toolkitId := 2, lastActivity := 50 }) "s" =
       some { transportId := 1, toolkitId := 2, lastActivity := 50 } ∧
     ((handlePost { recallPrivateKey := some "0xkey", recallNetwork := none } 50
      "fresh" 7 8
      { sessionIdHeader := some "s", contentType := some "application/json",
        accept := none }
      [("s", { transportId := 1, toolkitId := 2, lastActivity := 0 })]).1).hdrs.mcpSessionId =
       none) ∧
    ((handlePost { recallPrivateKey := some "0xkey", recallNetwork := none } 50
      "fresh" 7 8
      { sessionIdHeader := some "s", contentType := some "application/json",
        accept := none }
      [("s", { transportId := 1, toolkitId := 2, lastActivity := 0 })]).1 =
      HandlerOutcome.delegated 1 (negotiate "" emptyHeaders)) ∧
    ((handlePost { recallPrivateKey := some "0xkey", recallNetwork := none } 60
      "fresh" 7 8
      { sessionIdHeader := none, contentType := some "application/json",
        accept := none }
      [("s", { transportId := 1, toolkitId := 2, lastActivity := 0 })]).2 =
      [("s", { transportId := 1, toolkitId := 2, lastActivity := 0 })] ++
        [("fresh", { transportId := 7, toolkitId := 8, lastActivity := 60 })] ∧
     ((handlePost { recallPrivateKey := some "0xkey", recallNetwork := none } 60
      "fresh" 7 8
      { sessionIdHeader := none, contentType := some "application/json",
        accept := none }
      [("s", { transportId := 1, toolkitId := 2, lastActivity := 0 })]).1).hdrs.mcpSessionId =
      some "fresh") :=
  ⟨((claim5_session_resolution
      { recallPrivateKey := some "0xkey", recallNetwork := none } 50 "fresh" 7 8
      { sessionIdHeader := some "s", contentType := some "application/json",
        accept := none }
      [("s", { transportId := 1, toolkitId := 2, lastActivity := 0 })]).1
      "s" { transportId := 1, toolkitId := 2, lastActivity := 0 }
      (by decide)).1,
   ((claim5_session_resolution
      { recallPrivateKey := some "0xkey", recallNetwork := none } 50 "fresh" 7 8
      { sessionIdHeader := some "s", contentType := some "application/json",
        accept := none }
      [("s", { transportId := 1, toolkitId := 2, lastActivity := 0 })]).1
      "s" { transportId := 1, toolkitId := 2, lastActivity := 0 }
      (by decide)).2 (by decide),
   (claim5_session_resolution
      { recallPrivateKey := some "0xkey", recallNetwork := none } 60 "fresh" 7 8
      { sessionIdHeader := none, contentType := some "application/json",
        accept := none }
      [("s", { transportId := 1, toolkitId := 2, lastActivity := 0 })]).2
      (by decide) (by decide) (by decide)⟩

/-- Claim C6: idle expiry.  At a sweep tick at clock reading now, every
session whose elapsed time since lastActivity strictly exceeds the
30-minute idle timeout is absent afterwards, and every session whose
elapsed time does not exceed it is still present with its record
unchanged; the policy constants are 30 minutes of idle timeout and a
5-minute sweep period. -/
theorem claim6_idle_expiry (m : Store) (now : Int) (id : String)
    (sd : SessionData) (hnd : (akeys m).Nodup) (h : alookup m id = some sd) :
    (now - sd.lastActivity > sessionTimeout →
        alookup (sweepMap m now) id = none) ∧
    (¬ now - sd.lastActivity > sessionTimeout →
        alookup (sweepMap m now) id = some sd) ∧
    sessionTimeout = 30 * 60 * 1000 ∧ sweepInterval = 5 * 60 * 1000 := by
  refine ⟨?_, ?_, rfl, rfl⟩
  · intro hexp
    rw [alookup_sweepMap m now id sd hnd h, if_pos hexp]
  · intro hexp
    rw [alookup_sweepMap m now id sd hnd h, if_neg hexp]

/-- Witness for claim C6: a two-session store swept at a clock reading
that expires the first session (idle 1800001 ms) and keeps the second
(idle exactly the timeout). -/
theorem claim6_witness :
    alookup (sweepMap
      [("a", { transportId := 1, toolkitId := 1, lastActivity := 0 }),
       ("b", { transportId := 2, toolkitId := 2, lastActivity := 1 })]
      1800001) "a" = none ∧
    alookup (sweepMap
      [("a", { transportId := 1, toolkitId := 1, lastActivity := 0 }),
       ("b", { transportId := 2, toolkitId := 2, lastActivity := 1 })]
      1800001) "b" =
      some { transportId := 2, toolkitId := 2, lastActivity := 1 } :=
  ⟨(claim6_idle_expiry
      [("a", { transportId := 1, toolkitId := 1, lastActivity := 0 }),
       ("b", { transportId := 2, toolkitId := 2, lastActivity := 1 })]
      1800001 "a" { transportId := 1, toolkitId := 1, lastActivity := 0 }
      (by decide) (by decide)).1 (by decide),
   ((claim6_idle_expiry
      [("a", { transportId := 1, toolkitId := 1, lastActivity := 0 }),
       ("b", { transportId := 2, toolkitId := 2, lastActivity := 1 })]
      1800001 "b" { transportId := 2, toolkitId := 2, lastActivity := 1 }
      (by decide) (by decide)).2).1 (by decide)⟩

/-- Claim C7: every GET or DELETE whose session-ID header is missing,
empty, or names no live session (in particular the ID of a session
already terminated) is answered 400 with exactly the JSON-RPC envelope
of version 2.0, error code -32000, message Invalid or missing session ID
and null id, and the store is returned unmutated. -/
theorem claim7_invalid_session (method : Method) (now : Int) (req : Request)
    (st : Store) (hres : resolveSid req st = none) :
    handleSessionRequest method now req st =
      (HandlerOutcome.sent 400 emptyHeaders
        (SentBody.rpcErr ⟨"2.0", -32000, "Invalid or missing session ID", none⟩),
       st) := by
  simp [handleSessionRequest, hres]

/-- Witness for claim C7: a GET naming the stale ID gone against a store
holding only session s. -/
theorem claim7_witness :
    handleSessionRequest Method.GET 5
      { sessionIdHeader := some "gone", contentType := none,
        accept := some "text/event-stream" }
      [("s", { transportId := 1, toolkitId := 2, lastActivity := 0 })] =
      (HandlerOutcome.sent 400 emptyHeaders
        (SentBody.rpcErr ⟨"2.0", -32000, "Invalid or missing session ID", none⟩),
       [("s", { transportId := 1, toolkitId := 2, lastActivity := 0 })]) :=
  claim7_invalid_session Method.GET 5
    { sessionIdHeader := some "gone", contentType := none,
      accept := some "text/event-stream" }
    [("s", { transportId := 1, toolkitId := 2, lastActivity := 0 })]
    (by decide)

/-- Claim C8: ID uniqueness and non-revival.  Along any trace of store
events whose creation IDs are pairwise distinct (freshness of the UUID
generator) and in which session id was created and later closed, the live
session IDs are pairwise distinct at the end of the trace, the closed id
is absent from the store no matter what later events ran, and any later
request bearing that id resolves to no live session (so it is treated as
unknown rather than revived). -/
theorem claim8_id_uniqueness (evs1 evs2 : List SEv) (id : String)
    (hfresh : (createIds (evs1 ++ SEv.close id :: evs2)).Nodup)
    (hcreated : id ∈ createIds evs1) :
    (akeys (runEvs (evs1 ++ SEv.close id :: evs2))).Nodup ∧
    alookup (runEvs (evs1 ++ SEv.close id :: evs2)) id = none ∧
    (∀ req : Request, req.sessionIdHeader = some id →
      resolveSid req (runEvs (evs1 ++ SEv.close id :: evs2)) = none) := by
  have hnodup :=
    nodup_akeys_runFrom [] (evs1 ++ SEv.close id :: evs2) (by simp [akeys])
  have hsplit : runEvs (evs1 ++ SEv.close id :: evs2) =
      runFrom (aerase (runFrom [] evs1) id) evs2 := by
    rw [runEvs, runFrom_append]
    rfl
  have hfresh2 : (createIds evs1 ++ createIds evs2).Nodup := by
    rw [createIds_append] at hfresh
    exact hfresh
  have hid2 : id ∉ createIds evs2 := by
    have hdisj := (List.nodup_append.1 hfresh2).2.2
    exact fun hmem => hdisj hcreated hmem
  have habs : alookup (runFrom (aerase (runFrom [] evs1) id) evs2) id = none :=
    alookup_runFrom_none _ _ _ hid2 (alookup_aerase_self _ _)
  refine ⟨hnodup, ?_, ?_⟩
  · rw [hsplit]
    exact habs
  · intro req hh
    refine resolveSid_eq_none req _ id hh ?_
    rw [hsplit]
    exact habs

/-- Witness for claim C8: session a is created, closed, and a later
creation allocates the distinct fresh ID b; afterwards the key list is
duplicate-free and a is absent. -/
theorem claim8_witness :
    (akeys (runEvs
      ([SEv.create "a" 1 1 0] ++ SEv.close "a" :: [SEv.create "b" 2 2 5]))).Nodup ∧
    alookup (runEvs
      ([SEv.create "a" 1 1 0] ++ SEv.close "a" :: [SEv.create "b" 2 2 5])) "a" =
      none :=
  ⟨(claim8_id_uniqueness [SEv.create "a" 1 1 0] [SEv.create "b" 2 2 5] "a"
      (by decide) (by decide)).1,
   (claim8_id_uniqueness [SEv.create "a" 1 1 0] [SEv.create "b" 2 2 5] "a"
      (by decide) (by decide)).2.1⟩

/-- Claim C9: three-map consistency of the dist variant.  After any
sequence of the four mutation steps the code performs (registration at
creation, guarded activity touch, removal from all three on DELETE or
onclose, sweep tick), starting from the three empty maps, the maps
sessions, toolkits and lastActivity hold exactly the same keys. -/
theorem claim9_three_map_consistency (steps : List TriStep) :
    akeys (triRun steps).sessions = akeys (triRun steps).toolkits ∧
    akeys (triRun steps).sessions = akeys (triRun steps).lastActivity :=
  triConsistent_triRunFrom steps ⟨[], [], []⟩ ⟨rfl, rfl⟩

/-- Claim C10: Accept negotiation is literal substring matching.  With a
live session and a JSON content type, the POST response carries the
streaming header triple (event-stream content type, no-cache, keep-alive)
if and only if the Accept header string contains the substring
text/event-stream, and a GET passes the 406 gate under exactly the same
condition; the wildcard Accept */* and the absent Accept header do not
contain that substring, so they yield the plain JSON mode on POST and the
406 rejection on GET. -/
theorem claim10_accept_substring (env : Env) (now : Int) (freshId : String)
    (freshTr freshTk : Nat) (req : Request) (st : Store)
    (sid : String) (sd : SessionData)
    (hres : resolveSid req st = some (sid, sd))
    (hct : jsIncludes (req.contentType.getD "") "application/json" = true) :
    (((handlePost env now freshId freshTr freshTk req st).1).hdrs =
        { mcpSessionId := none, contentType := some "text/event-stream",
          cacheControl := some "no-cache", connection := some "keep-alive" } ↔
      jsIncludes (req.accept.getD "") "text/event-stream" = true) ∧
    ((handleSessionRequest Method.GET now req st).1 =
        HandlerOutcome.sent 406 emptyHeaders
          (SentBody.rpcErr ⟨"2.0", -32000,
            "Accept header must include text/event-stream", none⟩) ↔
      jsIncludes (req.accept.getD "") "text/event-stream" = false) ∧
    jsIncludes "*/*" "text/event-stream" = false ∧
    jsIncludes "" "text/event-stream" = false := by
  have hpost : ((handlePost env now freshId freshTr freshTk req st).1).hdrs =
      negotiate (req.accept.getD "") emptyHeaders := by
    simp [handlePost, hres, postValidate, hct, HandlerOutcome.hdrs]
  by_cases hacc : jsIncludes (req.accept.getD "") "text/event-stream" = true
  · refine ⟨?_, ?_, by decide, by decide⟩
    · rw [hpost]
      simp [negotiate, hacc, emptyHeaders]
    · simp [handleSessionRequest, hres, hacc]
  · simp only [Bool.not_eq_true] at hacc
    refine ⟨?_, ?_, by decide, by decide⟩
    · rw [hpost]
      simp [negotiate, hacc, emptyHeaders]
    · simp [handleSessionRequest, hres, hacc]

/-- Witness for claim C10 at a concrete input: live session s, JSON body,
Accept set to the wildcard. -/
theorem claim10_witness :
    (((handlePost { recallPrivateKey := some "0xkey", recallNetwork := none }
        4 "fresh" 7 8
        { sessionIdHeader := some "s", contentType := some "application/json",
          accept := some "*/*" }
        [("s", { transportId := 1, toolkitId := 2, lastActivity := 0 })]).1).hdrs =
        { mcpSessionId := none, contentType := some "text/event-stream",
          cacheControl := some "no-cache", connection := some "keep-alive" } ↔
      jsIncludes "*/*" "text/event-stream" = true) ∧
    ((handleSessionRequest Method.GET 4
        { sessionIdHeader := some "s", contentType := some "application/json",
          accept := some "*/*" }
        [("s", { transportId := 1, toolkitId := 2, lastActivity := 0 })]).1 =
        HandlerOutcome.sent 406 emptyHeaders
          (SentBody.rpcErr ⟨"2.0", -32000,
            "Accept header must include text/event-stream", none⟩) ↔
      jsIncludes "*/*" "text/event-stream" = false) :=
  ⟨(claim10_accept_substring
      { recallPrivateKey := some "0xkey", recallNetwork := none } 4 "fresh" 7 8
      { sessionIdHeader := some "s", contentType := some "application/json",
        accept := some "*/*" }
      [("s", { transportId := 1, toolkitId := 2, lastActivity := 0 })]
      "s" { transportId := 1, toolkitId := 2, lastActivity := 0 }
      (by decide) (by decide)).1,
   (claim10_accept_substring
      { recallPrivateKey := some "0xkey", recallNetwork := none } 4 "fresh" 7 8
      { sessionIdHeader := some "s", contentType := some "application/json",
        accept := some "*/*" }
      [("s", { transportId := 1, toolkitId := 2, lastActivity := 0 })]
      "s" { transportId := 1, toolkitId := 2, lastActivity := 0 }
      (by decide) (by decide)).2.1⟩

end RecallMcp
